import Mathlib

/-!
Verification of the tts-tester engine core.

This file embeds, as Lean definitions, the engine-layer logic of
`src/tts_tester/engines.py`, the persistence layer of
`src/tts_tester/settings.py` and the favorite-loading handler of
`src/tts_tester/main.py`, and proves theorems about them.

Modelling conventions:
- Python floats are modelled as rationals (all setting values used by
  the claims are exactly representable, and every product the code
  forms at those values is computed exactly by IEEE doubles, so the
  rational model agrees with the float semantics at every input used).
- Python `int(x)` truncates toward zero: `truncInt`.
- Subprocess and filesystem interaction is modelled by explicit
  oracles (an `Except` value for a process-query outcome, a function
  `String → Bool` for file existence, a structure of `isdir`/`listdir`
  functions for directory scanning).
-/

/-- Python `int()` on a real value: truncation toward zero. -/
def truncInt (q : ℚ) : ℤ :=
  if 0 ≤ q then ⌊q⌋ else ⌈q⌉

/-- The mutable settings held by a `TTSEngine` instance:
`self.speed`, `self.pitch`, `self.volume`, `self.voice`. -/
structure TTSState where
  speed : ℚ
  pitch : ℚ
  volume : ℚ
  voice : Option String
deriving DecidableEq

/-- `TTSEngine.__init__`: speed = pitch = volume = 1.0, voice = None. -/
def initState : TTSState := ⟨1, 1, 1, none⟩

/-- `EspeakEngine.speak`: `wpm = int(175 * self.speed)` (no clamp). -/
def espeakWpm (speed : ℚ) : ℤ :=
  truncInt (175 * speed)

/-- `EspeakEngine.speak`: `pitch_val = max(0, min(99, int(50 * self.pitch)))`. -/
def espeakPitchVal (pitch : ℚ) : ℤ :=
  max 0 (min 99 (truncInt (50 * pitch)))

/-- `EspeakEngine.speak`: `vol = max(0, min(200, int(100 * self.volume)))`. -/
def espeakVol (volume : ℚ) : ℤ :=
  max 0 (min 200 (truncInt (100 * volume)))

/-- The argument list `EspeakEngine.speak` hands to `subprocess.Popen`.
`if self.voice:` is Python truthiness, so `None` and `""` both skip the
`-v` argument. -/
def espeakCmd (st : TTSState) (text : String) (output_file : Option String)
    (ssml : Bool) : List String :=
  ["espeak-ng"]
    ++ (match st.voice with
        | some v => if v = "" then [] else ["-v", v]
        | none => [])
    ++ ["-s", toString (espeakWpm st.speed)]
    ++ ["-p", toString (espeakPitchVal st.pitch)]
    ++ ["-a", toString (espeakVol st.volume)]
    ++ (if ssml then ["-m"] else [])
    ++ (match output_file with
        | some f => ["-w", f]
        | none => [])
    ++ [text]

/-- Return value of `EspeakEngine.speak` when an output file is given:
after waiting for the subprocess it returns `output_file` unconditionally;
`fs` is the file-existence state after the subprocess ran and is never
consulted. -/
def espeakSpeakFileResult (fs : String → Bool) (output_file : String) :
    Option String :=
  some output_file

/-- Return value of `FestivalEngine.speak` when an output file is given:
returns `output_file` unconditionally after the subprocess communication;
the file-existence state `fs` is never consulted. -/
def festivalSpeakFileResult (fs : String → Bool) (output_file : String) :
    Option String :=
  some output_file

/-- Return value of `PiperEngine.speak`: returns `output_file` iff
`os.path.exists(output_file)` holds after the subprocess ran, else `None`. -/
def piperSpeakFileResult (fs : String → Bool) (output_file : String) :
    Option String :=
  if fs output_file then some output_file else none

/-- A token of the command list `PiperEngine.speak` builds: either a
literal string or a numeric value later rendered by `str(...)`. -/
inductive PTok where
  | lit (s : String)
  | num (q : ℚ)
deriving DecidableEq

/-- `PiperEngine.speak`: `if self.voice and self.voice != "":` adds
`--model <voice>` (Python truthiness: `None` and `""` both skip it). -/
def piperVoiceArgs (voice : Option String) : List PTok :=
  match voice with
  | some v => if v = "" then [] else [PTok.lit "--model", PTok.lit v]
  | none => []

/-- The command list `PiperEngine.speak` builds for a given output file:
`piper --output_file <f>`, the model argument, and
`--length_scale (1.0 / max(0.1, speed))` only when `speed != 1.0`. -/
def piperCmd (st : TTSState) (output_file : String) : List PTok :=
  [PTok.lit "piper", PTok.lit "--output_file", PTok.lit output_file]
    ++ piperVoiceArgs st.voice
    ++ (if st.speed ≠ 1 then
          [PTok.lit "--length_scale", PTok.num (1 / max (1/10) st.speed)]
        else [])

/-- A settings record as passed to `TTSEngine.apply_settings`: a dict in
which each of the four keys may be absent.  A present `voice` key may
still hold `None`, hence the nested option. -/
structure SettingsRecord where
  speed : Option ℚ
  pitch : Option ℚ
  volume : Option ℚ
  voice : Option (Option String)
deriving DecidableEq

/-- `TTSEngine.apply_settings`: each field is set from the dict with
`settings.get(key, default)`. -/
def apply_settings (r : SettingsRecord) (st : TTSState) : TTSState :=
  { speed := r.speed.getD 1
    pitch := r.pitch.getD 1
    volume := r.volume.getD 1
    voice := r.voice.getD none }

/-- `TTSEngine.get_settings`: returns the dict of the four current
fields. -/
def get_settings (st : TTSState) : TTSState := st

/-- Modelled from the spec: "a record equal to `record` with defaults
substituted for any omitted field" (defaults speed = pitch = volume = 1.0,
voice absent). -/
def recordWithDefaults (r : SettingsRecord) : TTSState :=
  ⟨r.speed.getD 1, r.pitch.getD 1, r.volume.getD 1, r.voice.getD none⟩

/-- Python `str.split()` with no separator: split on whitespace runs,
discarding empty fields. -/
def pySplitWs (s : String) : List String :=
  (s.split Char.isWhitespace).filter (fun t => t ≠ "")

/-- The parsing loop of `EspeakEngine.get_voices` over the subprocess
stdout: skip the header line, then for each line with at least four
whitespace-separated fields take `lang = parts[1]`, `name = parts[3]`
and record `(name, name ++ " (" ++ lang ++ ")")`. -/
def espeakParseVoices (stdout : String) : List (String × String) :=
  ((stdout.trim.splitOn "\n").drop 1).filterMap (fun line =>
    match pySplitWs line with
    | _ :: lang :: _ :: name :: _ =>
        some (name, name ++ " (" ++ lang ++ ")")
    | _ => none)

/-- `EspeakEngine.get_voices`: the `try` block runs the subprocess and
parses; `except (subprocess.SubprocessError, OSError)` returns the
(empty) accumulator. -/
def espeak_get_voices (query : Except Unit String) : List (String × String) :=
  match query with
  | Except.ok out => espeakParseVoices out
  | Except.error _ => []

/-- The parsing of `FestivalEngine.get_voices`: if the trimmed stdout is
parenthesised, split the inside on whitespace. -/
def festivalParseVoices (stdout : String) : List (String × String) :=
  let output := stdout.trim
  if output.startsWith "(" ∧ output.endsWith ")" then
    (pySplitWs ((output.drop 1).dropRight 1)).map (fun n => (n, n))
  else []

/-- `FestivalEngine.get_voices`: subprocess failure is caught and the
empty accumulator returned. -/
def festival_get_voices (query : Except Unit String) :
    List (String × String) :=
  match query with
  | Except.ok out => festivalParseVoices out
  | Except.error _ => []

/-- Stable insertion into an ascending list, for the `sorted(...)` model. -/
def insertLe (x : String) : List String → List String
  | [] => [x]
  | y :: ys => if x ≤ y then x :: y :: ys else y :: insertLe x ys

/-- Python `sorted` on a list of strings (ascending, stable). -/
def pySorted (l : List String) : List String :=
  l.foldr insertLe []

/-- The filesystem as seen by `PiperEngine.get_voices`:
`os.path.isdir` and `os.listdir`, the latter fallible (it raises
`OSError` e.g. on an unreadable directory). -/
structure PiperFS where
  isdir : String → Bool
  listdir : String → Except Unit (List String)

/-- The three directories `PiperEngine.get_voices` scans (with `~`
left unexpanded in the model). -/
def piperModelDirs : List String :=
  ["~/.local/share/piper-voices",
   "/usr/share/piper-voices",
   "~/.local/share/piper/voices"]

/-- One iteration of the directory loop in `PiperEngine.get_voices`:
if the directory exists, list it (propagating a listing failure — the
code has no `try`), keep the `.onnx` files in sorted order, and map each
to `(os.path.join(dir, f), f.replace(".onnx", ""))`. -/
def piperScanDir (fs : PiperFS) (dir : String) :
    Except Unit (List (String × String)) :=
  if fs.isdir dir then do
    let files ← fs.listdir dir
    pure (((pySorted files).filter (fun f => f.endsWith ".onnx")).map
      (fun f => (dir ++ "/" ++ f, f.replace ".onnx" "")))
  else pure []

/-- The directory loop of `PiperEngine.get_voices` over a list of
directories, concatenating results and propagating the first failure. -/
def piperScanAll (fs : PiperFS) : List String → Except Unit (List (String × String))
  | [] => pure []
  | d :: ds => do
      let v ← piperScanDir fs d
      let rest ← piperScanAll fs ds
      pure (v ++ rest)

/-- `PiperEngine.get_voices`: scan the three model directories; if no
voice was found, return the single `("", "(default)")` pseudo-voice. -/
def piper_get_voices (fs : PiperFS) : Except Unit (List (String × String)) := do
  let voices ← piperScanAll fs piperModelDirs
  pure (if voices = [] then [("", "(default)")] else voices)

/-- One entry of `ENGINE_CLASSES`: the class-level `name`,
`display_name`, and the external program probed by `is_available`
via `shutil.which`. -/
structure EngineClass where
  name : String
  displayName : String
  program : String
deriving DecidableEq

/-- `EspeakEngine` class constants. -/
def espeakClass : EngineClass := ⟨"espeak-ng", "eSpeak NG", "espeak-ng"⟩

/-- `PiperEngine` class constants. -/
def piperClass : EngineClass := ⟨"piper", "Piper", "piper"⟩

/-- `FestivalEngine` class constants. -/
def festivalClass : EngineClass := ⟨"festival", "Festival", "festival"⟩

/-- The static registry `ENGINE_CLASSES = [EspeakEngine, PiperEngine,
FestivalEngine]`. -/
def ENGINE_CLASSES : List EngineClass :=
  [espeakClass, piperClass, festivalClass]

/-- `cls.is_available()`: `shutil.which(program) is not None`, with the
executable search path modelled as `which : String → Bool`. -/
def engineIsAvailable (which : String → Bool) (c : EngineClass) : Bool :=
  which c.program

/-- `detect_engines()`: the registry filtered by availability. -/
def detect_engines (which : String → Bool) : List EngineClass :=
  ENGINE_CLASSES.filter (engineIsAvailable which)

/-- The lookup loop of `get_engine`: first class whose `name` matches. -/
def lookupEngine (name : String) : List EngineClass → Option EngineClass
  | [] => none
  | c :: cs => if c.name = name then some c else lookupEngine name cs

/-- `get_engine(name)`: linear lookup in `ENGINE_CLASSES`, `None` when
nothing matches. -/
def get_engine (name : String) : Option EngineClass :=
  lookupEngine name ENGINE_CLASSES

/-- A JSON value, for the persisted documents. -/
inductive Json where
  | null
  | bool (b : Bool)
  | num (q : ℚ)
  | str (s : String)
  | arr (xs : List Json)
  | obj (kvs : List (String × Json))

/-- Outcome of `open(path)` followed by `json.load`: the file may be
missing (`FileNotFoundError`), hold bytes that are not UTF-8 (text-mode
read raises `UnicodeDecodeError`), decode but be rejected by the JSON
parser (`json.JSONDecodeError`), or parse to a value. -/
inductive ReadOutcome where
  | missing
  | undecodable
  | malformed
  | parsed (v : Json)

/-- `load_settings`: the parsed value, or `{}` when the file is missing
or rejected by the JSON parser — those two exceptions are the only ones
the `except` clause names, so a `UnicodeDecodeError` from non-UTF-8
content propagates to the caller. -/
def load_settings (r : ReadOutcome) : Except Unit Json :=
  match r with
  | ReadOutcome.parsed v => Except.ok v
  | ReadOutcome.missing => Except.ok (Json.obj [])
  | ReadOutcome.malformed => Except.ok (Json.obj [])
  | ReadOutcome.undecodable => Except.error ()

/-- `load_favorites`: the parsed value, or `[]` when the file is missing
or rejected by the JSON parser; as in `load_settings`, a
`UnicodeDecodeError` from non-UTF-8 content is not caught and
propagates. -/
def load_favorites (r : ReadOutcome) : Except Unit Json :=
  match r with
  | ReadOutcome.parsed v => Except.ok v
  | ReadOutcome.missing => Except.ok (Json.arr [])
  | ReadOutcome.malformed => Except.ok (Json.arr [])
  | ReadOutcome.undecodable => Except.error ()

/-- A favorites entry as stored: every key is read with `.get`, so each
may be absent. -/
structure Favorite where
  name : Option String
  engine : Option String
  settingsPresent : Bool
deriving DecidableEq

/-- The engine-switch loop of `MainWindow._make_fav_handler`:
`for i, cls in enumerate(engine_list): if cls.name == engine_name:
set_selected(i); break` — first matching index, if any.  Comparing a
string to Python `None` is `False`, hence the `some`. -/
def findEngineIdx (engineName : Option String) :
    List EngineClass → ℕ → Option ℕ
  | [], _ => none
  | c :: cs, i =>
      if some c.name = engineName then some i
      else findEngineIdx engineName cs (i + 1)

/-- The selected-engine index after the favorite handler runs: when the
index is in range and some registry entry matches the favorite's engine
name, the dropdown moves there; otherwise the selection is untouched. -/
def favHandlerSelection (engineList : List EngineClass)
    (favorites : List Favorite) (idx : ℕ) (sel : ℕ) : ℕ :=
  if h : idx < favorites.length then
    match findEngineIdx (favorites.get ⟨idx, h⟩).engine engineList 0 with
    | some i => i
    | none => sel
  else sel

/-! ## Helper lemmas -/

theorem truncInt_intCast (n : ℤ) : truncInt (n : ℚ) = n := by
  simp [truncInt]

theorem espeakWpm_intCast (n : ℤ) : espeakWpm ((n : ℚ) / 175) = n := by
  have h : (175 : ℚ) * ((n : ℚ) / 175) = (n : ℚ) := by ring
  rw [espeakWpm, h, truncInt_intCast]

theorem espeakWpm_one : espeakWpm 1 = 175 := by
  norm_num [espeakWpm, truncInt]

theorem espeakPitchVal_one : espeakPitchVal 1 = 50 := by
  norm_num [espeakPitchVal, truncInt]

theorem espeakVol_one : espeakVol 1 = 100 := by
  norm_num [espeakVol, truncInt]

theorem piperVoiceArgs_no_num (q : ℚ) (voice : Option String) :
    PTok.num q ∉ piperVoiceArgs voice := by
  cases voice with
  | none => simp [piperVoiceArgs]
  | some v =>
      by_cases hv : v = "" <;> simp [piperVoiceArgs, hv]

/-! ## Claims -/

/-- C1 (amended): `EspeakEngine.speak` translates settings with Python
`int` truncation, not rounding: wpm = trunc(175·speed) toward zero, so
speed = 0.1 gives 17 (not 18) and speed = 4.0 gives 700; the pitch
argument is clamp(trunc(50·pitch), 0, 99), so pitch = 10.0 gives 99 and
pitch = -5 gives 0; the volume argument is clamp(trunc(100·volume), 0, 200),
so volume = 5.0 gives 200; with default settings,
`speak("Hello world", "/tmp/out.wav", ssml = false)` invokes
`espeak-ng -s 175 -p 50 -a 100 -w /tmp/out.wav "Hello world"` and
returns `/tmp/out.wav`. -/
theorem C1_espeak_translation :
    espeakWpm (1/10) = 17 ∧ espeakWpm 4 = 700 ∧
    espeakPitchVal 10 = 99 ∧ espeakPitchVal (-5) = 0 ∧ espeakVol 5 = 200 ∧
    espeakCmd initState "Hello world" (some "/tmp/out.wav") false =
      ["espeak-ng", "-s", "175", "-p", "50", "-a", "100",
       "-w", "/tmp/out.wav", "Hello world"] ∧
    (∀ fs : String → Bool,
      espeakSpeakFileResult fs "/tmp/out.wav" = some "/tmp/out.wav") := by
  refine ⟨by norm_num [espeakWpm, truncInt],
          by norm_num [espeakWpm, truncInt],
          by norm_num [espeakPitchVal, truncInt],
          ?_,
          by norm_num [espeakVol, truncInt],
          ?_, fun fs => rfl⟩
  · have ht : truncInt ((50 : ℚ) * (-5)) = -250 := by
      rw [show ((50 : ℚ) * (-5)) = ((-250 : ℤ) : ℚ) by norm_num, truncInt_intCast]
    rw [espeakPitchVal, ht]
    decide
  · simp [espeakCmd, initState, espeakWpm_one, espeakPitchVal_one, espeakVol_one]
    exact ⟨rfl, rfl, rfl⟩

/-- C1 counterexample: the claim says wpm = round(175·speed) and that
speed = 0.1 yields 18; the code computes `int(175 * 0.1)` which
truncates 17.5 to 17, differing from round(175·(1/10)) = 18. -/
theorem C1_counterexample :
    espeakWpm (1/10) = 17 ∧ round ((175 : ℚ) * (1/10)) = 18 ∧
    espeakWpm (1/10) ≠ round ((175 : ℚ) * (1/10)) := by
  refine ⟨by norm_num [espeakWpm, truncInt], by norm_num [round_eq], ?_⟩
  have h1 : espeakWpm (1/10) = 17 := by norm_num [espeakWpm, truncInt]
  have h2 : round ((175 : ℚ) * (1/10)) = 18 := by norm_num [round_eq]
  rw [h1, h2]
  decide

/-- C2 (amended): the pitch and volume arguments emitted by
`EspeakEngine.speak` are clamped into espeak-ng's valid ranges [0, 99]
and [0, 200]; but the speed (wpm) argument is emitted without any
clamping — it exceeds every fixed bound for large enough speeds — so not
every numeric argument is clamped into a valid range before invocation. -/
theorem C2_espeak_clamping :
    (∀ p : ℚ, 0 ≤ espeakPitchVal p ∧ espeakPitchVal p ≤ 99) ∧
    (∀ v : ℚ, 0 ≤ espeakVol v ∧ espeakVol v ≤ 200) ∧
    (∀ hi : ℤ, ∃ s : ℚ, 0 < s ∧ hi < espeakWpm s) := by
  refine ⟨fun p => ⟨le_max_left 0 _, ?_⟩, fun v => ⟨le_max_left 0 _, ?_⟩, ?_⟩
  · exact max_le (by norm_num) (min_le_left _ _)
  · exact max_le (by norm_num) (min_le_left _ _)
  · intro hi
    refine ⟨((max hi 0 + 1 : ℤ) : ℚ) / 175, ?_, ?_⟩
    · have h1 : (0 : ℤ) < max hi 0 + 1 := by
        have := le_max_right hi 0
        omega
      have h2 : (0 : ℚ) < ((max hi 0 + 1 : ℤ) : ℚ) := by exact_mod_cast h1
      positivity
    · rw [espeakWpm_intCast]
      have := le_max_left hi 0
      omega

/-- C2 counterexample: there is no fixed range [lo, hi] into which the
emitted wpm values are clamped — the speed argument of
`EspeakEngine.speak` is unbounded over positive speeds. -/
theorem C2_counterexample :
    ¬ ∃ lo hi : ℤ, ∀ s : ℚ, 0 < s → lo ≤ espeakWpm s ∧ espeakWpm s ≤ hi := by
  rintro ⟨lo, hi, h⟩
  have h1 : (0 : ℤ) < max hi 0 + 1 := by
    have := le_max_right hi 0
    omega
  have h2 : (0 : ℚ) < ((max hi 0 + 1 : ℤ) : ℚ) / 175 := by
    have : (0 : ℚ) < ((max hi 0 + 1 : ℤ) : ℚ) := by exact_mod_cast h1
    positivity
  have h3 := (h _ h2).2
  rw [espeakWpm_intCast] at h3
  have := le_max_left hi 0
  omega

/-- C3: `PiperEngine.speak` passes `--length_scale` with value
1 / max(0.1, speed) exactly when speed ≠ 1.0 (speed = 2.0 yields 0.5,
at the end of the command), and when speed = 1.0 the command is exactly
the program, output-file and voice arguments, with no numeric token and
no `--length_scale` flag. -/
theorem C3_piper_length_scale :
    (∀ out : String, piperCmd ⟨2, 1, 1, none⟩ out =
      [PTok.lit "piper", PTok.lit "--output_file", PTok.lit out,
       PTok.lit "--length_scale", PTok.num (1/2)]) ∧
    (∀ (st : TTSState) (out : String), st.speed ≠ 1 →
      [PTok.lit "--length_scale", PTok.num (1 / max (1/10) st.speed)]
        <:+ piperCmd st out) ∧
    (∀ (st : TTSState) (out : String), st.speed = 1 →
      piperCmd st out =
        [PTok.lit "piper", PTok.lit "--output_file", PTok.lit out]
          ++ piperVoiceArgs st.voice ∧
      (∀ q : ℚ, PTok.num q ∉ piperCmd st out)) := by
  refine ⟨?_, ?_, ?_⟩
  · intro out
    have hmax : max ((1:ℚ)/10) 2 = 2 := by norm_num
    have h2 : ((2:ℚ)) ≠ 1 := by norm_num
    simp [piperCmd, piperVoiceArgs, hmax, h2]
    norm_num
  · intro st out h
    refine ⟨[PTok.lit "piper", PTok.lit "--output_file", PTok.lit out]
      ++ piperVoiceArgs st.voice, ?_⟩
    simp [piperCmd, h]
  · intro st out h
    have hcmd : piperCmd st out =
        [PTok.lit "piper", PTok.lit "--output_file", PTok.lit out]
          ++ piperVoiceArgs st.voice := by
      simp [piperCmd, h]
    refine ⟨hcmd, fun q => ?_⟩
    rw [hcmd]
    intro hmem
    rcases List.mem_append.mp hmem with hl | hr
    · simp at hl
    · exact piperVoiceArgs_no_num q st.voice hr

/-- C3 witness: the two hypothetical parts instantiated at speed = 2 and
speed = 1 with no voice and output `/tmp/a.wav`. -/
theorem C3_piper_length_scale_witness :
    ([PTok.lit "--length_scale", PTok.num (1 / max (1/10) (2:ℚ))]
       <:+ piperCmd ⟨2, 1, 1, none⟩ "/tmp/a.wav") ∧
    (piperCmd ⟨1, 1, 1, none⟩ "/tmp/a.wav" =
       [PTok.lit "piper", PTok.lit "--output_file", PTok.lit "/tmp/a.wav"]
         ++ piperVoiceArgs none ∧
     (∀ q : ℚ, PTok.num q ∉ piperCmd ⟨1, 1, 1, none⟩ "/tmp/a.wav")) :=
  ⟨C3_piper_length_scale.2.1 ⟨2, 1, 1, none⟩ "/tmp/a.wav" (by norm_num),
   C3_piper_length_scale.2.2 ⟨1, 1, 1, none⟩ "/tmp/a.wav" rfl⟩

/-- C4 (amended): with an output path, `PiperEngine.speak` returns the
path only if a file exists there at return (otherwise `None`), but
`EspeakEngine.speak` and `FestivalEngine.speak` return the path
unconditionally once their subprocess has completed, without checking
that the file exists. -/
theorem C4_speak_file_contract :
    (∀ (fs : String → Bool) (out p : String),
      piperSpeakFileResult fs out = some p → p = out ∧ fs p = true) ∧
    (∀ (fs : String → Bool) (out : String),
      espeakSpeakFileResult fs out = some out) ∧
    (∀ (fs : String → Bool) (out : String),
      festivalSpeakFileResult fs out = some out) := by
  refine ⟨?_, fun fs out => rfl, fun fs out => rfl⟩
  intro fs out p h
  unfold piperSpeakFileResult at h
  by_cases hfs : fs out
  · rw [if_pos hfs] at h
    cases h
    exact ⟨rfl, hfs⟩
  · rw [if_neg hfs] at h
    cases h

/-- C4 witness: Piper's contract instantiated at a state where the file
exists at the output path. -/
theorem C4_speak_file_contract_witness :
    "/tmp/out.wav" = "/tmp/out.wav" ∧
    (fun _ : String => true) "/tmp/out.wav" = true :=
  C4_speak_file_contract.1 (fun _ => true) "/tmp/out.wav" "/tmp/out.wav" rfl

/-- C4 counterexample: in a post-subprocess state where no file exists
at `/tmp/out.wav`, `EspeakEngine.speak` still returns `/tmp/out.wav`
normally — the claim's "file exists at return, or the call fails" is
violated. -/
theorem C4_counterexample :
    espeakSpeakFileResult (fun _ => false) "/tmp/out.wav" =
      some "/tmp/out.wav" ∧
    (fun _ : String => false) "/tmp/out.wav" = false :=
  ⟨rfl, rfl⟩

/-- C5: `apply_settings` followed by `get_settings` returns the record
with the defaults (speed = pitch = volume = 1.0, voice absent)
substituted for every omitted field, independent of the prior state. -/
theorem C5_settings_roundtrip :
    ∀ (r : SettingsRecord) (st : TTSState),
      get_settings (apply_settings r st) = recordWithDefaults r :=
  fun r st => rfl

/-- C6 (amended): `EspeakEngine.get_voices` and `FestivalEngine.get_voices`
catch a failing voice query and return the empty sequence; but
`PiperEngine.get_voices` does not guard its filesystem queries — there is
a filesystem state (a directory that exists but whose listing fails) in
which the failure propagates to the caller. -/
theorem C6_voice_failure :
    (∀ e : Unit, espeak_get_voices (Except.error e) = []) ∧
    (∀ e : Unit, festival_get_voices (Except.error e) = []) ∧
    (∃ fs : PiperFS, piper_get_voices fs = Except.error ()) :=
  ⟨fun e => rfl, fun e => rfl,
   ⟨⟨fun d => d == "~/.local/share/piper-voices", fun _ => Except.error ()⟩,
    rfl⟩⟩

/-- C6 counterexample: a filesystem in which the first model directory
exists but listing it fails (as an unreadable directory does) makes
`PiperEngine.get_voices` propagate the error instead of returning an
empty sequence. -/
theorem C6_counterexample :
    piper_get_voices
      ⟨fun d => d == "~/.local/share/piper-voices",
       fun _ => Except.error ()⟩ = Except.error () :=
  rfl

/-- The lookup loop returns an element of the list whose `name` matches. -/
theorem lookupEngine_some {name : String} {c : EngineClass} :
    ∀ l : List EngineClass, lookupEngine name l = some c →
      c.name = name ∧ c ∈ l := by
  intro l
  induction l with
  | nil => intro h; cases h
  | cons d ds ih =>
      intro h
      rw [lookupEngine] at h
      by_cases hd : d.name = name
      · rw [if_pos hd] at h
        cases h
        exact ⟨hd, by simp⟩
      · rw [if_neg hd] at h
        obtain ⟨h1, h2⟩ := ih h
        exact ⟨h1, by simp [h2]⟩

/-- C7: `detect_engines` filters the static registry by availability,
preserving registry order (its result is a sublist of `ENGINE_CLASSES`,
and exactly the available entries), so with no external program installed
it returns the empty list; `get_engine` is a linear lookup returning the
first matching variant — `"espeak-ng"`, `"piper"` and `"festival"` map to
their classes and an unknown identifier such as `"nonexistent"` maps to
`None`. -/
theorem C7_registry :
    (∀ which : String → Bool, (detect_engines which).Sublist ENGINE_CLASSES) ∧
    (∀ which : String → Bool,
      ∀ c, c ∈ detect_engines which ↔
        c ∈ ENGINE_CLASSES ∧ engineIsAvailable which c = true) ∧
    (∀ which : String → Bool, (∀ p, which p = false) →
      detect_engines which = []) ∧
    get_engine "nonexistent" = none ∧
    get_engine "espeak-ng" = some espeakClass ∧
    get_engine "piper" = some piperClass ∧
    get_engine "festival" = some festivalClass ∧
    (∀ (name : String) (c : EngineClass), get_engine name = some c →
      c.name = name ∧ c ∈ ENGINE_CLASSES) := by
  refine ⟨?_, ?_, ?_, rfl, rfl, rfl, rfl, ?_⟩
  · intro which
    exact List.filter_sublist _
  · intro which c
    simp [detect_engines, List.mem_filter]
  · intro which h
    simp [detect_engines, ENGINE_CLASSES, engineIsAvailable, List.filter, h]
  · intro name c h
    exact lookupEngine_some ENGINE_CLASSES h

/-- C7 witness: the hypothetical parts instantiated at the environment
with no program installed and at the identifier `"espeak-ng"`. -/
theorem C7_registry_witness :
    detect_engines (fun _ => false) = [] ∧
    (espeakClass.name = "espeak-ng" ∧ espeakClass ∈ ENGINE_CLASSES) :=
  ⟨C7_registry.2.2.1 (fun _ => false) (fun p => rfl),
   C7_registry.2.2.2.2.2.2.2 "espeak-ng" espeakClass rfl⟩

/-- C8 (amended): when the settings or favorites file is missing, or
holds UTF-8 content the JSON parser rejects, loading returns the empty
default (`{}` for settings, `[]` for favorites) and raises no error; but
a file of non-UTF-8 bytes — equally malformed content — raises
`UnicodeDecodeError`, which the `except` clause does not name, and the
failure propagates to the caller. -/
theorem C8_load_defaults :
    (∀ r : ReadOutcome,
      (r = ReadOutcome.missing ∨ r = ReadOutcome.malformed) →
      load_settings r = Except.ok (Json.obj []) ∧
      load_favorites r = Except.ok (Json.arr [])) ∧
    load_settings ReadOutcome.undecodable = Except.error () ∧
    load_favorites ReadOutcome.undecodable = Except.error () := by
  refine ⟨?_, rfl, rfl⟩
  rintro r (rfl | rfl) <;> exact ⟨rfl, rfl⟩

/-- C8 witness: the missing-file case of the default-substituting part. -/
theorem C8_load_defaults_witness :
    load_settings ReadOutcome.missing = Except.ok (Json.obj []) ∧
    load_favorites ReadOutcome.missing = Except.ok (Json.arr []) :=
  C8_load_defaults.1 ReadOutcome.missing (Or.inl rfl)

/-- C8 counterexample: a settings or favorites file holding non-UTF-8
bytes is malformed content, yet loading it propagates the decode failure
instead of returning the empty default. -/
theorem C8_counterexample :
    load_settings ReadOutcome.undecodable = Except.error () ∧
    load_favorites ReadOutcome.undecodable = Except.error () :=
  ⟨rfl, rfl⟩

/-- The engine-switch loop finds nothing when no registry entry's name
matches the favorite's engine identifier. -/
theorem findEngineIdx_eq_none {engineName : Option String} :
    ∀ (l : List EngineClass), (∀ c ∈ l, some c.name ≠ engineName) →
      ∀ i, findEngineIdx engineName l i = none := by
  intro l
  induction l with
  | nil => intro _ i; rfl
  | cons c cs ih =>
      intro h i
      rw [findEngineIdx, if_neg (h c (by simp))]
      exact ih (fun d hd => h d (by simp [hd])) (i + 1)

/-- C9: activating a favorite whose engine identifier matches no variant
of the registry list does not raise (the handler is a total function)
and leaves the currently selected engine index unchanged. -/
theorem C9_unknown_favorite :
    ∀ (engineList : List EngineClass) (favorites : List Favorite)
      (idx sel : ℕ) (h : idx < favorites.length),
      (∀ c ∈ engineList, (favorites.get ⟨idx, h⟩).engine ≠ some c.name) →
      favHandlerSelection engineList favorites idx sel = sel := by
  intro el favs idx sel h hne
  rw [favHandlerSelection, dif_pos h,
    findEngineIdx_eq_none el (fun c hc => fun he => hne c hc he.symm) 0]

/-- C9 witness: one favorite naming the engine `"nonexistent"`, loaded
against the full registry with engine 5 selected: the selection stays 5. -/
theorem C9_unknown_favorite_witness :
    favHandlerSelection ENGINE_CLASSES
      [⟨some "fav", some "nonexistent", false⟩] 0 5 = 5 :=
  C9_unknown_favorite ENGINE_CLASSES
    [⟨some "fav", some "nonexistent", false⟩] 0 5
    (by decide) (by decide)

/-- Membership in a sorted-insertion result. -/
theorem mem_insertLe {x a : String} :
    ∀ {l : List String}, x ∈ insertLe a l ↔ x = a ∨ x ∈ l := by
  intro l
  induction l with
  | nil => simp [insertLe]
  | cons y ys ih =>
      rw [insertLe]
      by_cases hle : a ≤ y
      · rw [if_pos hle]
        simp
      · rw [if_neg hle]
        simp only [List.mem_cons, ih]
        tauto

/-- Sorting preserves membership. -/
theorem mem_pySorted {x : String} :
    ∀ {l : List String}, x ∈ pySorted l ↔ x ∈ l := by
  intro l
  induction l with
  | nil => simp [pySorted]
  | cons y ys ih =>
      show x ∈ insertLe y (pySorted ys) ↔ _
      rw [mem_insertLe]
      simp only [List.mem_cons]
      rw [ih]

/-- A directory scan finds nothing when the directory is absent or its
(successful) listing holds no `.onnx` file. -/
theorem piperScanDir_ok_nil {fs : PiperFS} {d : String}
    (h : fs.isdir d = true →
      ∃ files, fs.listdir d = Except.ok files ∧
        ∀ f ∈ files, f.endsWith ".onnx" = false) :
    piperScanDir fs d = Except.ok [] := by
  rw [piperScanDir]
  by_cases hd : fs.isdir d
  · obtain ⟨files, hl, hf⟩ := h hd
    rw [if_pos hd]
    show (fs.listdir d).bind _ = _
    rw [hl]
    show Except.ok ((((pySorted files).filter _).map _)) = _
    have hfil : (pySorted files).filter (fun f => f.endsWith ".onnx") = [] := by
      rw [List.filter_eq_nil_iff]
      intro a ha
      simp [hf a (mem_pySorted.mp ha)]
    rw [hfil]
    rfl
  · rw [if_neg hd]
    rfl

/-- C10: in every filesystem state where the directory scans succeed and
find no `.onnx` model file, `PiperEngine.get_voices` returns exactly the
one pseudo-voice with the empty identifier, `("", "(default)")`; and
whenever it returns normally its result is never the empty sequence. -/
theorem C10_piper_default_voice :
    (∀ fs : PiperFS,
      (∀ d ∈ piperModelDirs, fs.isdir d = true →
        ∃ files, fs.listdir d = Except.ok files ∧
          ∀ f ∈ files, f.endsWith ".onnx" = false) →
      piper_get_voices fs = Except.ok [("", "(default)")]) ∧
    (∀ (fs : PiperFS) (l : List (String × String)),
      piper_get_voices fs = Except.ok l → l ≠ []) := by
  constructor
  · intro fs h
    have h1 := piperScanDir_ok_nil (h "~/.local/share/piper-voices" (by simp [piperModelDirs]))
    have h2 := piperScanDir_ok_nil (h "/usr/share/piper-voices" (by simp [piperModelDirs]))
    have h3 := piperScanDir_ok_nil (h "~/.local/share/piper/voices" (by simp [piperModelDirs]))
    rw [piper_get_voices]
    show (piperScanAll fs piperModelDirs).bind _ = _
    have hall : piperScanAll fs piperModelDirs = Except.ok [] := by
      rw [piperModelDirs]
      rw [piperScanAll]
      show (piperScanDir fs _).bind _ = _
      rw [h1]
      show (piperScanAll fs _).bind _ = _
      rw [piperScanAll]
      show ((piperScanDir fs _).bind _).bind _ = _
      rw [h2]
      show ((piperScanAll fs _).bind _).bind _ = _
      rw [piperScanAll]
      show (((piperScanDir fs _).bind _).bind _).bind _ = _
      rw [h3]
      rfl
    rw [hall]
    rfl
  · intro fs l h
    rw [piper_get_voices] at h
    cases hs : piperScanAll fs piperModelDirs with
    | error e =>
        rw [hs] at h
        cases h
    | ok vs =>
        rw [hs] at h
        by_cases hvs : vs = []
        · simp only [hvs, bind, Except.bind, if_pos rfl, pure, Except.pure] at h
          cases h
          simp
        · simp only [bind, Except.bind, pure, Except.pure, if_neg hvs] at h
          cases h
          exact hvs

/-- C10 witness: a filesystem in which none of the scanned directories
exists yields exactly the default pseudo-voice, which is not the empty
sequence. -/
theorem C10_piper_default_voice_witness :
    piper_get_voices ⟨fun _ => false, fun _ => Except.ok []⟩ =
      Except.ok [("", "(default)")] ∧
    ([(("" : String), ("(default)" : String))] : List (String × String)) ≠ [] :=
  ⟨C10_piper_default_voice.1 ⟨fun _ => false, fun _ => Except.ok []⟩
    (fun d _ hd => absurd hd (by simp)),
   C10_piper_default_voice.2 ⟨fun _ => false, fun _ => Except.ok []⟩
    [("", "(default)")]
    (C10_piper_default_voice.1 ⟨fun _ => false, fun _ => Except.ok []⟩
      (fun d _ hd => absurd hd (by simp)))⟩
